import Mathlib

/-!
Verification of the zipo-backend listing search & reconciliation engine
(`src/routes/cars.ts`) against its natural-language specification.

The TypeScript source is shallowly embedded: JS numbers are modelled as `ℚ`
(all values arising here are finite), JSON values as the inductive `JVal`
(arrays are not modelled — no property considered here touches them),
`undefined` as `Option.none` and JS `null` as `JVal.jnull`.  SQL text is
carried verbatim as `String`s (single quotes written `\x27`), bound
parameters as the `Param` type, and the positional-placeholder counter `i`
of the source as the `idx` field of `BuildSt`.
-/

/-- `Math.trunc` on a rational: round toward zero (`Int.tdiv` truncates
toward zero, matching JS). -/
def jsTrunc (x : ℚ) : Int := x.num.tdiv (x.den : Int)

/-- `clamp(n, min, max)` from the source (`Math.max(min, Math.min(max, n))`). -/
def clampQ (n mn mx : ℚ) : ℚ := max mn (min mx n)

/-- `clamp` specialised to the integer uses in `sanitizeUpsert`. -/
def clampInt (n mn mx : Int) : Int := max mn (min mx n)

/-- JS whitespace for `trim` purposes (the characters relevant to this API). -/
def isWs (c : Char) : Bool := c = ' ' || c = '\t' || c = '\n' || c = '\r'

/-- Drop leading whitespace from a character list. -/
def dropWs : List Char → List Char
  | [] => []
  | c :: r => if isWs c then dropWs r else c :: r

/-- Trim both ends of a character list. -/
def trimList (l : List Char) : List Char := dropWs ((dropWs l.reverse).reverse)

/-- JS `s.trim()`. -/
def jsTrim (s : String) : String := String.mk (trimList s.data)

/-- JS `s.toLowerCase()` (ASCII, which is all this API compares). -/
def lowerStr (s : String) : String := String.mk (s.data.map Char.toLower)

/-- JS `s.toUpperCase()` (ASCII: country codes). -/
def upperStr (s : String) : String := String.mk (s.data.map Char.toUpper)

/-- Split a character list at every `.` (helper for `decParse`). -/
def splitDot : List Char → List (List Char)
  | [] => [[]]
  | c :: r =>
      if c = '.' then [] :: splitDot r
      else
        match splitDot r with
        | [] => [[c]]
        | p :: ps => (c :: p) :: ps

/-- Value of a digit list, most significant first (helper for `decParse`). -/
def digsVal (l : List Char) : Nat := l.foldl (fun acc c => acc * 10 + (c.toNat - 48)) 0

/-- JS `Number(s)` on an already-trimmed, non-empty string, restricted to
plain decimal numerals (optional sign, digits, optional fraction); exponent,
hexadecimal and `Infinity` forms — which `parseNumber` rejects anyway via
`Number.isFinite` or which do not occur in this API's inputs — yield `none`
(read: `NaN`). -/
def decParse (s : String) : Option ℚ :=
  let sb : Int × List Char :=
    match s.data with
    | '-' :: r => (-1, r)
    | '+' :: r => (1, r)
    | r => (1, r)
  match splitDot sb.2 with
  | [a] =>
      if a ≠ [] && a.all Char.isDigit then some (mkRat (sb.1 * (digsVal a : Int)) 1)
      else none
  | [a, b] =>
      if (a ≠ [] || b ≠ []) && a.all Char.isDigit && b.all Char.isDigit then
        some (mkRat (sb.1 * ((digsVal a * 10 ^ b.length + digsVal b : Nat) : Int))
          (10 ^ b.length))
      else none
  | _ => none

/-- JS `Number(s)` for a string: the empty (after trimming) string is `0`
(`Number("")` is `0` in JS); otherwise `decParse`. -/
def jsNumberOfString (s : String) : Option ℚ :=
  let t := jsTrim s
  if t = "" then some 0 else decParse t

/-- `parseNumber` from the source, applied to an optional query-string value:
`trim`; empty or unparseable input degrades to absent. -/
def parseNumberS (v : Option String) : Option ℚ :=
  v.bind fun s =>
    let t := jsTrim s
    if t = "" then none else decParse t

/-- `parseIntLike` from the source on query strings: `Math.trunc(parseNumber v)`. -/
def parseIntLikeS (v : Option String) : Option Int := (parseNumberS v).map jsTrunc

/-- `normalizeStr` from the source on an optional string: trim, empty → absent. -/
def normalizeStrS (v : Option String) : Option String :=
  v.bind fun s =>
    let t := jsTrim s
    if t = "" then none else some t

/-- A bound SQL parameter: JS strings and (finite) numbers. -/
inductive Param where
  | pstr (s : String)
  | pnum (x : ℚ)
deriving DecidableEq, Repr

/-- The predicate-builder state of `buildWhere`: the `where` clause list, the
positional `params` list and the next-placeholder counter `i`. -/
structure BuildSt where
  clauses : List String
  params : List Param
  idx : Nat
deriving DecidableEq, Repr

/-- `where.push(c)` for a clause with no bound parameter. -/
def pushClause (st : BuildSt) (c : String) : BuildSt :=
  { st with clauses := st.clauses ++ [c] }

/-- `where.push(mk i); params.push(p); i++` — one clause consuming one
placeholder. -/
def pushParam (st : BuildSt) (mk : Nat → String) (p : Param) : BuildSt :=
  { clauses := st.clauses ++ [mk st.idx], params := st.params ++ [p], idx := st.idx + 1 }

/-- The query-string record accepted by the list/search read endpoints
(`CarsListQuery` in the source); absent keys are `none`.  The source's
`type` key is spelled `vtype` here. -/
structure CarsListQuery where
  country : Option String := none
  city : Option String := none
  area : Option String := none
  vtype : Option String := none
  transmission : Option String := none
  fuel : Option String := none
  seats : Option String := none
  yearMin : Option String := none
  yearMax : Option String := none
  minPrice : Option String := none
  maxPrice : Option String := none
  hasImage : Option String := none
  status : Option String := none
  q : Option String := none
  limit : Option String := none
  offset : Option String := none
deriving Repr

/-- `[yearMin, yearMax] = [yearMax, yearMin]` / `[minPrice, maxPrice] = ...`:
swap both bounds when both are present and inverted (`min > max`). -/
def swapIfInverted {α : Type} [LT α] [DecidableRel (α := α) (· < ·)]
    (a b : Option α) : Option α × Option α :=
  match a, b with
  | some x, some y => if y < x then (some y, some x) else (some x, some y)
  | x, y => (x, y)

/-- `buildWhere`, opening: always `deleted_at IS NULL`, and `status = 'active'`
unless an explicit status filter was supplied. -/
def bwInit (q : CarsListQuery) : BuildSt :=
  let st : BuildSt := ⟨["deleted_at IS NULL"], [], 1⟩
  if (normalizeStrS q.status).isNone then pushClause st "status = \x27active\x27" else st

/-- One optional-filter block of `buildWhere`: if the coerced value is
present, push one clause (text `mk i` at the current placeholder) and one
bound parameter (`toP` of the value); otherwise leave the builder unchanged. -/
def pushOpt {α : Type} (st : BuildSt) (v : Option α) (mk : Nat → String)
    (toP : α → Param) : BuildSt :=
  match v with
  | some x => pushParam st mk (toP x)
  | none => st

/-- `buildWhere`, country block. -/
def bwCountry (q : CarsListQuery) (st : BuildSt) : BuildSt :=
  pushOpt st (normalizeStrS q.country) (fun i => "country_code = $" ++ toString i) .pstr

/-- `buildWhere`, city block (case-insensitive substring, `%city%` pattern). -/
def bwCity (q : CarsListQuery) (st : BuildSt) : BuildSt :=
  pushOpt st (normalizeStrS q.city)
    (fun i => "LOWER(city) LIKE LOWER($" ++ toString i ++ ")")
    (fun c => .pstr ("%" ++ c ++ "%"))

/-- `buildWhere`, area block. -/
def bwArea (q : CarsListQuery) (st : BuildSt) : BuildSt :=
  pushOpt st (normalizeStrS q.area)
    (fun i => "LOWER(COALESCE(area,\x27\x27)) LIKE LOWER($" ++ toString i ++ ")")
    (fun c => .pstr ("%" ++ c ++ "%"))

/-- `buildWhere`, vehicle-type block. -/
def bwType (q : CarsListQuery) (st : BuildSt) : BuildSt :=
  pushOpt st (normalizeStrS q.vtype) (fun i => "vehicle_type = $" ++ toString i) .pstr

/-- `buildWhere`, transmission block. -/
def bwTransmission (q : CarsListQuery) (st : BuildSt) : BuildSt :=
  pushOpt st (normalizeStrS q.transmission) (fun i => "transmission = $" ++ toString i) .pstr

/-- `buildWhere`, fuel block. -/
def bwFuel (q : CarsListQuery) (st : BuildSt) : BuildSt :=
  pushOpt st (normalizeStrS q.fuel) (fun i => "fuel_type = $" ++ toString i) .pstr

/-- `buildWhere`, explicit status-equality block. -/
def bwStatusEq (q : CarsListQuery) (st : BuildSt) : BuildSt :=
  pushOpt st (normalizeStrS q.status) (fun i => "status = $" ++ toString i) .pstr

/-- `buildWhere`, seats block. -/
def bwSeats (q : CarsListQuery) (st : BuildSt) : BuildSt :=
  pushOpt st (parseIntLikeS q.seats) (fun i => "seats = $" ++ toString i)
    (fun n => .pnum (n : ℚ))

/-- `buildWhere`, year-range block with inverted-bounds swap. -/
def bwYears (q : CarsListQuery) (st : BuildSt) : BuildSt :=
  let p := swapIfInverted (parseIntLikeS q.yearMin) (parseIntLikeS q.yearMax)
  pushOpt
    (pushOpt st p.1 (fun i => "year >= $" ++ toString i) (fun v => .pnum (v : ℚ)))
    p.2 (fun i => "year <= $" ++ toString i) (fun v => .pnum (v : ℚ))

/-- `buildWhere`, price-range block with inverted-bounds swap. -/
def bwPrices (q : CarsListQuery) (st : BuildSt) : BuildSt :=
  let p := swapIfInverted (parseNumberS q.minPrice) (parseNumberS q.maxPrice)
  pushOpt
    (pushOpt st p.1 (fun i => "price_per_day >= $" ++ toString i) .pnum)
    p.2 (fun i => "price_per_day <= $" ++ toString i) .pnum

/-- `buildWhere`, hasImage block: exact string comparison against
`"true"`/`"false"`, any other value ignored. -/
def bwHasImage (q : CarsListQuery) (st : BuildSt) : BuildSt :=
  let st1 :=
    if q.hasImage = some "true" then
      pushClause st "has_image = true AND image_public = true"
    else st
  if q.hasImage = some "false" then pushClause st1 "has_image = false" else st1

/-- The free-text OR-group clause: the same placeholder appears in all five
case-insensitive comparisons (title, make, model, city, area). -/
def searchClause (i : Nat) : String :=
  "(LOWER(title) LIKE LOWER($" ++ toString i ++
    ") OR LOWER(COALESCE(make,\x27\x27)) LIKE LOWER($" ++ toString i ++
    ") OR LOWER(COALESCE(model,\x27\x27)) LIKE LOWER($" ++ toString i ++
    ") OR LOWER(city) LIKE LOWER($" ++ toString i ++
    ") OR LOWER(COALESCE(area,\x27\x27)) LIKE LOWER($" ++ toString i ++ "))"

/-- `buildWhere`, free-text block: one OR-group clause, one `%term%` parameter. -/
def bwTerm (q : CarsListQuery) (st : BuildSt) : BuildSt :=
  pushOpt st (normalizeStrS q.q) searchClause (fun t => .pstr ("%" ++ t ++ "%"))

/-- `buildWhere` up to (but excluding) the free-text block, in source order. -/
def buildWherePre (q : CarsListQuery) : BuildSt :=
  bwHasImage q (bwPrices q (bwYears q (bwSeats q (bwStatusEq q (bwFuel q
    (bwTransmission q (bwType q (bwArea q (bwCity q (bwCountry q (bwInit q)))))))))))

/-- `buildWhere` from the source: the ordered clause list, parameter list and
final placeholder counter. -/
def buildWhere (q : CarsListQuery) : BuildSt := bwTerm q (buildWherePre q)

-- -------------------------------------------------------------------------------------
-- Builder invariants
-- -------------------------------------------------------------------------------------

/-- The builder's placeholder counter always sits one past the parameter
count (`i` starts at 1 and `i++` accompanies every `params.push`). -/
def StIdxOk (st : BuildSt) : Prop := st.idx = st.params.length + 1

lemma mem_pushClause {st : BuildSt} {c x : String} (h : x ∈ st.clauses) :
    x ∈ (pushClause st c).clauses := by
  simp only [pushClause, List.mem_append]
  exact Or.inl h

lemma mem_pushParam {st : BuildSt} {mk : Nat → String} {p : Param} {x : String}
    (h : x ∈ st.clauses) : x ∈ (pushParam st mk p).clauses := by
  simp only [pushParam, List.mem_append]
  exact Or.inl h

lemma mem_pushOpt {α : Type} {st : BuildSt} {v : Option α} {mk : Nat → String}
    {toP : α → Param} {x : String} (h : x ∈ st.clauses) :
    x ∈ (pushOpt st v mk toP).clauses := by
  cases v with
  | none => exact h
  | some a => exact mem_pushParam h

lemma mem_bwHasImage {q : CarsListQuery} {st : BuildSt} {x : String}
    (h : x ∈ st.clauses) : x ∈ (bwHasImage q st).clauses := by
  unfold bwHasImage
  dsimp only
  split
  · split
    · exact mem_pushClause (mem_pushClause h)
    · exact mem_pushClause h
  · split
    · exact mem_pushClause h
    · exact h

lemma mem_buildWherePre {q : CarsListQuery} {x : String}
    (h : x ∈ (bwInit q).clauses) : x ∈ (buildWherePre q).clauses :=
  mem_bwHasImage (mem_pushOpt (mem_pushOpt (mem_pushOpt (mem_pushOpt (mem_pushOpt
    (mem_pushOpt (mem_pushOpt (mem_pushOpt (mem_pushOpt (mem_pushOpt
      (mem_pushOpt (mem_pushOpt h))))))))))))

lemma stIdxOk_pushClause {st : BuildSt} {c : String} (h : StIdxOk st) :
    StIdxOk (pushClause st c) := h

lemma stIdxOk_pushParam {st : BuildSt} {mk : Nat → String} {p : Param}
    (h : StIdxOk st) : StIdxOk (pushParam st mk p) := by
  unfold StIdxOk at h ⊢
  simp only [pushParam, List.length_append, List.length_cons, List.length_nil]
  omega

lemma stIdxOk_pushOpt {α : Type} {st : BuildSt} {v : Option α} {mk : Nat → String}
    {toP : α → Param} (h : StIdxOk st) : StIdxOk (pushOpt st v mk toP) := by
  cases v with
  | none => exact h
  | some a => exact stIdxOk_pushParam h

lemma stIdxOk_bwInit (q : CarsListQuery) : StIdxOk (bwInit q) := by
  unfold bwInit
  dsimp only
  split
  · exact stIdxOk_pushClause rfl
  · exact rfl

lemma stIdxOk_bwHasImage {q : CarsListQuery} {st : BuildSt} (h : StIdxOk st) :
    StIdxOk (bwHasImage q st) := by
  unfold bwHasImage
  dsimp only
  split
  · split
    · exact stIdxOk_pushClause (stIdxOk_pushClause h)
    · exact stIdxOk_pushClause h
  · split
    · exact stIdxOk_pushClause h
    · exact h

lemma stIdxOk_buildWherePre (q : CarsListQuery) : StIdxOk (buildWherePre q) :=
  stIdxOk_bwHasImage (stIdxOk_pushOpt (stIdxOk_pushOpt (stIdxOk_pushOpt
    (stIdxOk_pushOpt (stIdxOk_pushOpt (stIdxOk_pushOpt (stIdxOk_pushOpt
      (stIdxOk_pushOpt (stIdxOk_pushOpt (stIdxOk_pushOpt (stIdxOk_pushOpt
        (stIdxOk_pushOpt (stIdxOk_bwInit q)))))))))))))

-- -------------------------------------------------------------------------------------
-- C1
-- -------------------------------------------------------------------------------------

/-- C1: for every filter input, the predicate list produced by `buildWhere`
(used by the public list/search reads) contains the not-soft-deleted clause
`deleted_at IS NULL`, and — when the caller did not supply a status filter —
also the clause `status = 'active'`; hence every returned row satisfies
`deletedAt = null` and, absent an explicit status filter, `status = active`. -/
theorem C1_reads_filter_soft_deleted_and_default_active (q : CarsListQuery) :
    "deleted_at IS NULL" ∈ (buildWhere q).clauses ∧
    ((normalizeStrS q.status).isNone →
      "status = \x27active\x27" ∈ (buildWhere q).clauses) := by
  constructor
  · refine mem_pushOpt (mem_buildWherePre ?_)
    unfold bwInit
    dsimp only
    split
    · exact mem_pushClause (List.mem_singleton.mpr rfl)
    · exact List.mem_singleton.mpr rfl
  · intro hs
    refine mem_pushOpt (mem_buildWherePre ?_)
    unfold bwInit
    dsimp only
    rw [if_pos hs]
    simp [pushClause]

/-- Concrete instance of C1 at the empty query. -/
theorem C1_witness :
    "deleted_at IS NULL" ∈ (buildWhere {}).clauses ∧
    "status = \x27active\x27" ∈ (buildWhere {}).clauses :=
  ⟨(C1_reads_filter_soft_deleted_and_default_active {}).1,
   (C1_reads_filter_soft_deleted_and_default_active {}).2 (by decide)⟩

-- -------------------------------------------------------------------------------------
-- C5
-- -------------------------------------------------------------------------------------

lemma swapIfInverted_comm {α : Type} [LinearOrder α] {a b : α} (h : b < a) :
    swapIfInverted (some b) (some a) = swapIfInverted (some a) (some b) := by
  simp [swapIfInverted, h, lt_asymm h]

lemma bwPrices_swap (q : CarsListQuery) {a b : ℚ}
    (h1 : parseNumberS q.minPrice = some a) (h2 : parseNumberS q.maxPrice = some b)
    (h3 : b < a) (st : BuildSt) :
    bwPrices { q with minPrice := q.maxPrice, maxPrice := q.minPrice } st
      = bwPrices q st := by
  unfold bwPrices
  dsimp only
  rw [h1, h2, swapIfInverted_comm h3]

lemma bwYears_swap (q : CarsListQuery) {a b : Int}
    (h1 : parseIntLikeS q.yearMin = some a) (h2 : parseIntLikeS q.yearMax = some b)
    (h3 : b < a) (st : BuildSt) :
    bwYears { q with yearMin := q.yearMax, yearMax := q.yearMin } st
      = bwYears q st := by
  unfold bwYears
  dsimp only
  rw [h1, h2, swapIfInverted_comm h3]

/-- C5: inverted range bounds are swapped, so the emitted clauses, bound
parameters and placeholder numbering are identical to those of the query
with the two inputs exchanged — for `(minPrice, maxPrice)` and likewise for
`(yearMin, yearMax)`. -/
theorem C5_inverted_ranges_swap (q : CarsListQuery) :
    (∀ a b : ℚ, parseNumberS q.minPrice = some a → parseNumberS q.maxPrice = some b →
      b < a →
      buildWhere { q with minPrice := q.maxPrice, maxPrice := q.minPrice }
        = buildWhere q) ∧
    (∀ a b : Int, parseIntLikeS q.yearMin = some a → parseIntLikeS q.yearMax = some b →
      b < a →
      buildWhere { q with yearMin := q.yearMax, yearMax := q.yearMin }
        = buildWhere q) := by
  constructor
  · intro a b h1 h2 h3
    unfold buildWhere buildWherePre
    rw [bwPrices_swap q h1 h2 h3]
    rfl
  · intro a b h1 h2 h3
    unfold buildWhere buildWherePre
    rw [bwYears_swap q h1 h2 h3]
    rfl

/-- Concrete instance of C5: `minPrice=50, maxPrice=20` builds the same
query as `minPrice=20, maxPrice=50` (and `yearMin=2020, yearMax=2010` the
same as the swapped pair). -/
theorem C5_witness :
    buildWhere { minPrice := some "20", maxPrice := some "50",
                 yearMin := some "2020", yearMax := some "2010" }
      = buildWhere { minPrice := some "50", maxPrice := some "20",
                     yearMin := some "2020", yearMax := some "2010" } ∧
    buildWhere { minPrice := some "50", maxPrice := some "20",
                 yearMin := some "2010", yearMax := some "2020" }
      = buildWhere { minPrice := some "50", maxPrice := some "20",
                     yearMin := some "2020", yearMax := some "2010" } :=
  ⟨(C5_inverted_ranges_swap
      { minPrice := some "50", maxPrice := some "20",
        yearMin := some "2020", yearMax := some "2010" }).1
      50 20 (by decide) (by decide) (by decide),
   (C5_inverted_ranges_swap
      { minPrice := some "50", maxPrice := some "20",
        yearMin := some "2020", yearMax := some "2010" }).2
      2020 2010 (by decide) (by decide) (by decide)⟩

-- -------------------------------------------------------------------------------------
-- C6
-- -------------------------------------------------------------------------------------

/-- C6: a non-empty free-text term appends exactly one clause — the OR-group
`searchClause n` over title/make/model/city/area, whose five comparisons all
reference the same placeholder `n` = one past the parameter count — and
exactly one bound parameter, the `%term%` pattern; the placeholder counter
advances by exactly one. -/
theorem C6_free_text_single_clause_single_param (q : CarsListQuery) (t : String)
    (h : normalizeStrS q.q = some t) :
    (buildWhere q).clauses
      = (buildWhere { q with q := none }).clauses
        ++ [searchClause ((buildWhere { q with q := none }).params.length + 1)] ∧
    (buildWhere q).params
      = (buildWhere { q with q := none }).params
        ++ [Param.pstr ("%" ++ t ++ "%")] ∧
    (buildWhere q).idx = (buildWhere { q with q := none }).idx + 1 := by
  have hbase : buildWhere { q with q := none } = buildWherePre q := rfl
  have hidx : (buildWherePre q).idx = (buildWherePre q).params.length + 1 :=
    stIdxOk_buildWherePre q
  rw [hbase]
  unfold buildWhere bwTerm
  rw [h]
  unfold pushOpt pushParam
  refine ⟨?_, rfl, rfl⟩
  rw [hidx]

/-- Concrete instance of C6 at the term `" suv "` (trimmed to `suv`). -/
theorem C6_witness :
    (buildWhere { q := some " suv ", city := some "Rome" }).clauses
      = (buildWhere { q := none, city := some "Rome" }).clauses
        ++ [searchClause
            ((buildWhere { q := none, city := some "Rome" }).params.length + 1)] ∧
    (buildWhere { q := some " suv ", city := some "Rome" }).params
      = (buildWhere { q := none, city := some "Rome" }).params
        ++ [Param.pstr "%suv%"] ∧
    (buildWhere { q := some " suv ", city := some "Rome" }).idx
      = (buildWhere { q := none, city := some "Rome" }).idx + 1 :=
  C6_free_text_single_clause_single_param
    { q := some " suv ", city := some "Rome" } "suv" (by decide)

-- -------------------------------------------------------------------------------------
-- C4
-- -------------------------------------------------------------------------------------

/-- JS `x || d`: `NaN` (`none`) and `0` are falsy and fall back to the default. -/
def jsOr (n : Option ℚ) (d : ℚ) : ℚ :=
  match n with
  | none => d
  | some x => if x = 0 then d else x

/-- `Number(q.limit ?? 20)`-style coercion: an absent value numerifies the
numeric default; a present string goes through JS `Number`. -/
def numOrDefault (v : Option String) (d : ℚ) : Option ℚ :=
  match v with
  | some s => jsNumberOfString s
  | none => some d

/-- `clamp(Number(q.limit ?? 20) || 20, 1, 50)` — GET /cars. -/
def carsListLimit (v : Option String) : ℚ := clampQ (jsOr (numOrDefault v 20) 20) 1 50

/-- `Math.max(Number(q.offset ?? 0) || 0, 0)` — GET /cars. -/
def carsListOffset (v : Option String) : ℚ := max (jsOr (numOrDefault v 0) 0) 0

/-- `clamp(Number(q.limit ?? 200) || 200, 1, 500)` — GET /cars/map. -/
def carsMapLimit (v : Option String) : ℚ := clampQ (jsOr (numOrDefault v 200) 200) 1 500

/-- C4 counterexample: a limit requested as `0` does NOT yield the endpoint
minimum 1 — `Number("0") || default` treats `0` as falsy, so the default
(20 for the listing, 200 for the map) is used instead. -/
theorem C4_counterexample :
    carsListLimit (some "0") = 20 ∧ carsListLimit (some "0") ≠ 1 ∧
    carsMapLimit (some "0") = 200 ∧ carsMapLimit (some "0") ≠ 1 := by
  decide

/-- C4 amended: a negative requested limit yields 1 and a negative offset
yields 0; a limit of exactly `0` falls back to the endpoint default (20 for
the general listing, 200 for the map viewport) because the `|| default`
fallback treats `0` as absent; a limit above the ceiling yields the ceiling
(50 / 500); a non-negative offset is taken as-is. -/
theorem C4_amended_pagination_clamps (s : String) (x : ℚ)
    (h : jsNumberOfString s = some x) :
    (x < 0 → carsListLimit (some s) = 1 ∧ carsMapLimit (some s) = 1 ∧
      carsListOffset (some s) = 0) ∧
    (x = 0 → carsListLimit (some s) = 20 ∧ carsMapLimit (some s) = 200) ∧
    (50 < x → carsListLimit (some s) = 50) ∧
    (500 < x → carsMapLimit (some s) = 500) ∧
    (0 ≤ x → carsListOffset (some s) = x) := by
  unfold carsListLimit carsMapLimit carsListOffset numOrDefault clampQ
  dsimp only
  rw [h]
  refine ⟨fun hx => ?_, fun hx => ?_, fun hx => ?_, fun hx => ?_, fun hx => ?_⟩
  · rw [show jsOr (some x) 20 = x from by simp [jsOr, hx.ne],
        show jsOr (some x) 200 = x from by simp [jsOr, hx.ne],
        show jsOr (some x) 0 = x from by simp [jsOr, hx.ne]]
    refine ⟨?_, ?_, ?_⟩
    · rw [min_eq_right (by linarith), max_eq_left (by linarith)]
    · rw [min_eq_right (by linarith), max_eq_left (by linarith)]
    · rw [max_eq_right (by linarith)]
  · rw [show jsOr (some x) 20 = 20 from by simp [jsOr, hx],
        show jsOr (some x) 200 = 200 from by simp [jsOr, hx]]
    constructor
    · rw [min_eq_right (by norm_num), max_eq_right (by norm_num)]
    · rw [min_eq_right (by norm_num), max_eq_right (by norm_num)]
  · rw [show jsOr (some x) 20 = x from by simp [jsOr]; intro h0; linarith [h0 ▸ hx]]
    rw [min_eq_left (by linarith), max_eq_right (by linarith)]
  · rw [show jsOr (some x) 200 = x from by simp [jsOr]; intro h0; linarith [h0 ▸ hx]]
    rw [min_eq_left (by linarith), max_eq_right (by linarith)]
  · rcases eq_or_lt_of_le hx with h0 | h0
    · rw [show jsOr (some x) 0 = 0 from by simp [jsOr, h0.symm]]
      rw [max_eq_right (by norm_num), ← h0]
    · rw [show jsOr (some x) 0 = x from by simp [jsOr, h0.ne.symm]]
      rw [max_eq_left (by linarith)]

/-- Concrete instance of the amended C4 at a negative requested value. -/
theorem C4_amended_witness :
    carsListLimit (some "-7") = 1 ∧ carsMapLimit (some "-7") = 1 ∧
    carsListOffset (some "-7") = 0 :=
  (C4_amended_pagination_clamps "-7" (-7) (by decide)).1 (by norm_num)

-- -------------------------------------------------------------------------------------
-- Map viewport (GET /cars/map): bbox validation and query plan
-- -------------------------------------------------------------------------------------

/-- The query-string record of the map endpoint (`CarsMapQuery`): the list
filters plus the bounding box and optional radius mode. -/
structure CarsMapQuery extends CarsListQuery where
  minLat : Option String := none
  maxLat : Option String := none
  minLng : Option String := none
  maxLng : Option String := none
  lat : Option String := none
  lng : Option String := none
  radiusKm : Option String := none

/-- The `ST_DWithin` radius clause: placeholders for center lng/lat and the
radius (km, multiplied into meters in SQL). -/
def stDWithinClause (latIdx lngIdx radIdx : Nat) : String :=
  "ST_DWithin(ST_SetSRID(ST_MakePoint(pickup_lng, pickup_lat), 4326)::geography, " ++
    "ST_SetSRID(ST_MakePoint($" ++ toString lngIdx ++ ", $" ++ toString latIdx ++
    "), 4326)::geography, ($" ++ toString radIdx ++ " * 1000.0))"

/-- The pre-query phase of the GET /cars/map handler: bbox parsing and
validation (missing or unparseable coordinates, then inverted bounds, each a
400 with no query issued), then the WHERE/params plan — `buildWhere` output
plus the coords-not-null clause, the two BETWEEN clauses binding the box,
the default-active clause, and, when `lat`/`lng`/`radiusKm` all parse, the
`ST_DWithin` clause with the radius clamped to `[1, 50]`. -/
def carsMapPlan (q : CarsMapQuery) : Except String BuildSt :=
  match parseNumberS q.minLat, parseNumberS q.maxLat,
      parseNumberS q.minLng, parseNumberS q.maxLng with
  | some minLat, some maxLat, some minLng, some maxLng =>
      if maxLat < minLat ∨ maxLng < minLng then
        Except.error "minLat <= maxLat and minLng <= maxLng"
      else
        let st0 := buildWhere q.toCarsListQuery
        let i := st0.params.length + 1
        let w1 := st0.clauses ++ ["pickup_lat IS NOT NULL AND pickup_lng IS NOT NULL"]
        let w2 := w1 ++
          ["pickup_lat BETWEEN $" ++ toString i ++ " AND $" ++ toString (i + 1)]
        let p2 := st0.params ++ [Param.pnum minLat, Param.pnum maxLat]
        let w3 := w2 ++
          ["pickup_lng BETWEEN $" ++ toString (i + 2) ++ " AND $" ++ toString (i + 3)]
        let p3 := p2 ++ [Param.pnum minLng, Param.pnum maxLng]
        let w4 := if (normalizeStrS q.status).isNone
          then w3 ++ ["status = \x27active\x27"] else w3
        match parseNumberS q.lat, parseNumberS q.lng, parseNumberS q.radiusKm with
        | some la, some ln, some rr =>
            Except.ok ⟨w4 ++ [stDWithinClause (i + 4) (i + 5) (i + 6)],
              p3 ++ [Param.pnum la, Param.pnum ln, Param.pnum (clampQ rr 1 50)], i + 7⟩
        | _, _, _ => Except.ok ⟨w4, p3, i + 4⟩
  | _, _, _, _ => Except.error "minLat,maxLat,minLng,maxLng are required"

-- -------------------------------------------------------------------------------------
-- C7
-- -------------------------------------------------------------------------------------

/-- C7: the map viewport fails with a validation error — before any query
plan is produced — whenever any of minLat/maxLat/minLng/maxLng is missing or
unparseable, or when the box is inverted; it produces a plan exactly when
all four parse and are correctly ordered. -/
theorem C7_map_bbox_validation (q : CarsMapQuery) :
    ((parseNumberS q.minLat = none ∨ parseNumberS q.maxLat = none ∨
      parseNumberS q.minLng = none ∨ parseNumberS q.maxLng = none) →
      carsMapPlan q = Except.error "minLat,maxLat,minLng,maxLng are required") ∧
    (∀ a b c d : ℚ, parseNumberS q.minLat = some a → parseNumberS q.maxLat = some b →
      parseNumberS q.minLng = some c → parseNumberS q.maxLng = some d →
      (b < a ∨ d < c) →
      carsMapPlan q = Except.error "minLat <= maxLat and minLng <= maxLng") ∧
    (∀ a b c d : ℚ, parseNumberS q.minLat = some a → parseNumberS q.maxLat = some b →
      parseNumberS q.minLng = some c → parseNumberS q.maxLng = some d →
      a ≤ b → c ≤ d → ∃ st, carsMapPlan q = Except.ok st) := by
  refine ⟨fun h => ?_, fun a b c d h1 h2 h3 h4 hbad => ?_,
    fun a b c d h1 h2 h3 h4 hab hcd => ?_⟩
  · rcases hA : parseNumberS q.minLat with _ | a <;>
      rcases hB : parseNumberS q.maxLat with _ | b <;>
      rcases hC : parseNumberS q.minLng with _ | c <;>
      rcases hD : parseNumberS q.maxLng with _ | d <;>
      simp_all [carsMapPlan]
  · simp only [carsMapPlan, h1, h2, h3, h4]
    rw [if_pos hbad]
  · simp only [carsMapPlan, h1, h2, h3, h4]
    rw [if_neg (by rw [not_or]; exact ⟨not_lt.mpr hab, not_lt.mpr hcd⟩)]
    rcases parseNumberS q.lat with _ | la <;>
      rcases parseNumberS q.lng with _ | ln <;>
      rcases parseNumberS q.radiusKm with _ | rr <;>
      exact ⟨_, rfl⟩

/-- The inverted concrete bounding box used to instantiate C7. -/
def qBoxInv : CarsMapQuery :=
  { minLat := some "43.9", maxLat := some "43.6", minLng := some "-79.6", maxLng := some "-79.1" }

/-- The valid concrete bounding box used to instantiate C7. -/
def qBoxOk : CarsMapQuery :=
  { minLat := some "43.6", maxLat := some "43.9", minLng := some "-79.6", maxLng := some "-79.1" }

/-- A bounding box with a missing corner, used to instantiate C7. -/
def qBoxMissing : CarsMapQuery :=
  { minLat := some "43.6", maxLat := some "43.9", minLng := some "-79.6" }

/-- Concrete instances of C7: a missing corner, an inverted box, a valid box. -/
theorem C7_witness :
    carsMapPlan qBoxMissing = Except.error "minLat,maxLat,minLng,maxLng are required" ∧
    carsMapPlan qBoxInv = Except.error "minLat <= maxLat and minLng <= maxLng" ∧
    ∃ st, carsMapPlan qBoxOk = Except.ok st :=
  ⟨(C7_map_bbox_validation qBoxMissing).1 (by decide),
   (C7_map_bbox_validation qBoxInv).2.1
      (mkRat 439 10) (mkRat 436 10) (mkRat (-796) 10) (mkRat (-791) 10)
      (by decide) (by decide) (by decide) (by decide) (by decide),
   (C7_map_bbox_validation qBoxOk).2.2
      (mkRat 436 10) (mkRat 439 10) (mkRat (-796) 10) (mkRat (-791) 10)
      (by decide) (by decide) (by decide) (by decide) (by decide) (by decide)⟩

-- -------------------------------------------------------------------------------------
-- C9
-- -------------------------------------------------------------------------------------

/-- C9: the map endpoint performs no range validation on the bounding box —
`parseNumber` (unlike `parseLat`/`parseLng` on the write path) imposes no
`[-90,90]` / `[-180,180]` bounds — so any parseable, correctly ordered box
is accepted and its four values are bound as parameters as-is. -/
theorem C9_map_bbox_not_range_checked (q : CarsMapQuery) (a b c d : ℚ)
    (h1 : parseNumberS q.minLat = some a) (h2 : parseNumberS q.maxLat = some b)
    (h3 : parseNumberS q.minLng = some c) (h4 : parseNumberS q.maxLng = some d)
    (hab : a ≤ b) (hcd : c ≤ d) :
    ∃ st, carsMapPlan q = Except.ok st ∧ Param.pnum a ∈ st.params ∧
      Param.pnum b ∈ st.params ∧ Param.pnum c ∈ st.params ∧ Param.pnum d ∈ st.params := by
  simp only [carsMapPlan, h1, h2, h3, h4]
  rw [if_neg (by rw [not_or]; exact ⟨not_lt.mpr hab, not_lt.mpr hcd⟩)]
  rcases parseNumberS q.lat with _ | la <;>
    rcases parseNumberS q.lng with _ | ln <;>
    rcases parseNumberS q.radiusKm with _ | rr <;>
    exact ⟨_, rfl, by simp, by simp, by simp, by simp⟩

/-- A wildly out-of-range but parseable, correctly ordered bounding box (its
latitudes exceed 90 and longitudes exceed 180), used to instantiate C9. -/
def qBoxHuge : CarsMapQuery :=
  { minLat := some "120", maxLat := some "150", minLng := some "-400", maxLng := some "400" }

/-- Concrete instance of C9: latitudes beyond 90 and longitudes beyond 180
are accepted and bound. -/
theorem C9_witness :
    ∃ st, carsMapPlan qBoxHuge = Except.ok st ∧ Param.pnum 120 ∈ st.params ∧
      Param.pnum 150 ∈ st.params ∧ Param.pnum (-400) ∈ st.params ∧
      Param.pnum 400 ∈ st.params :=
  C9_map_bbox_not_range_checked qBoxHuge 120 150 (-400) 400
    (by decide) (by decide) (by decide) (by decide) (by decide) (by decide)

-- -------------------------------------------------------------------------------------
-- C10
-- -------------------------------------------------------------------------------------

/-- The slice of a stored `cars` row that the soft-delete routes touch. -/
structure StoredCar where
  deleted_at : Option Int := none
  updated_at : Int := 0
deriving DecidableEq, Repr

/-- A row is visible to the read surface only when `deleted_at IS NULL`
(the clause every read query carries, cf. `buildWhere`). -/
def rowVisible (r : StoredCar) : Bool := r.deleted_at.isNone

/-- DELETE /cars/:id — `UPDATE ... SET deleted_at = NOW(), updated_at = NOW()
WHERE id = $1 AND deleted_at IS NULL RETURNING id`: `none` models the
no-row-matched 404. -/
def deleteCar (now : Int) (r : StoredCar) : Option StoredCar :=
  if r.deleted_at = none then some { r with deleted_at := some now, updated_at := now }
  else none

/-- POST /cars/:id/restore — `UPDATE ... SET deleted_at = NULL, updated_at =
NOW() WHERE id = $1 AND deleted_at IS NOT NULL RETURNING ...`: `none` models
the no-row-matched 404. -/
def restoreCar (now : Int) (r : StoredCar) : Option StoredCar :=
  if r.deleted_at ≠ none then some { r with deleted_at := none, updated_at := now }
  else none

/-- C10: soft delete and restore round-trip — deleting a visible row marks it
deleted, restoring it afterwards makes it visible again; restore on a visible
row matches no row (404), and delete on an already-deleted row matches no
row (404). -/
theorem C10_soft_delete_restore_round_trip (r : StoredCar) (t t2 : Int)
    (h : r.deleted_at = none) :
    ∃ r1, deleteCar t r = some r1 ∧ r1.deleted_at = some t ∧ rowVisible r1 = false ∧
      (∃ r2, restoreCar t2 r1 = some r2 ∧ r2.deleted_at = none ∧ rowVisible r2 = true) ∧
      restoreCar t2 r = none ∧ deleteCar t2 r1 = none := by
  rw [deleteCar, if_pos h]
  refine ⟨_, rfl, rfl, rfl, ?_, ?_, ?_⟩
  · rw [restoreCar, if_pos (by simp)]
    exact ⟨_, rfl, rfl, rfl⟩
  · rw [restoreCar, if_neg (by simp [h])]
  · rw [deleteCar, if_neg (by simp)]

/-- Concrete instance of C10 on a fresh visible row. -/
theorem C10_witness :
    ∃ r1, deleteCar 5 ({} : StoredCar) = some r1 ∧ r1.deleted_at = some 5 ∧
      rowVisible r1 = false ∧
      (∃ r2, restoreCar 9 r1 = some r2 ∧ r2.deleted_at = none ∧ rowVisible r2 = true) ∧
      restoreCar 9 ({} : StoredCar) = none ∧ deleteCar 9 r1 = none :=
  C10_soft_delete_restore_round_trip {} 5 9 rfl

-- -------------------------------------------------------------------------------------
-- JSON values (write payloads and feature bags)
-- -------------------------------------------------------------------------------------

/-- A JSON value as the write path sees it.  JS `undefined` is modelled as
`Option.none` one level up; JS `null` is `jnull`.  Arrays are not modelled:
no property considered here touches `image_gallery`, the only array field. -/
inductive JVal where
  | jnull
  | jbool (b : Bool)
  | jnum (x : ℚ)
  | jstr (s : String)
  | jobj (fields : List (String × JVal))

/-- First-match association lookup, the access semantics of a JS object. -/
def jlookup : List (String × JVal) → String → Option JVal
  | [], _ => none
  | p :: r, key => if p.1 = key then some p.2 else jlookup r key

/-- `v?.k` on a JS value: property access, `undefined` off non-objects. -/
def jget (v : JVal) (k : String) : Option JVal :=
  match v with
  | .jobj fs => jlookup fs k
  | _ => none

/-- `v?.k` when `v` itself may be `undefined`. -/
def jgetO (v : Option JVal) (k : String) : Option JVal := v.bind fun x => jget x k

/-- `x ?? d` where `x` may be `undefined` (`none`) or `null` (`jnull`). -/
def jco (v : Option JVal) (d : JVal) : JVal :=
  match v with
  | none => d
  | some .jnull => d
  | some x => x

/-- `isPlainObject` from the source (arrays are unmodelled, see `JVal`). -/
def isPlainObject (v : JVal) : Bool :=
  match v with
  | .jobj _ => true
  | _ => false

/-- The property list of a JS value (empty off objects). -/
def jvalFields (v : JVal) : List (String × JVal) :=
  match v with
  | .jobj fs => fs
  | _ => []

/-- `{...v, k: x}` — object spread with one overriding property. -/
def jset (v : JVal) (k : String) (x : JVal) : JVal :=
  .jobj ((jvalFields v).filter (fun p => p.1 ≠ k) ++ [(k, x)])

/-- JS `String(v)`.  A non-integer number's decimal rendering is
approximated with a fraction — no property considered here stringifies a
non-integer number. -/
def jvalToString (v : JVal) : String :=
  match v with
  | .jnull => "null"
  | .jbool b => if b then "true" else "false"
  | .jnum x => if x.den = 1 then toString x.num else toString x.num ++ "/" ++ toString x.den
  | .jstr s => s
  | .jobj _ => "[object Object]"

/-- `normalizeStr` from the source on a JS value: `null`/`undefined` →
absent, else `String(v).trim()`, empty → absent. -/
def normalizeStrJ (v : Option JVal) : Option String :=
  match v with
  | none => none
  | some .jnull => none
  | some x =>
      let t := jsTrim (jvalToString x)
      if t = "" then none else some t

/-- `pickString` from the source: non-strings → `null`, else trim, empty →
`null`. -/
def pickString (v : Option JVal) : Option String :=
  match v with
  | some (.jstr s) =>
      let t := jsTrim s
      if t = "" then none else some t
  | _ => none

/-- JS `Number(v)`; `none` plays `NaN`.  (`Number(null)` is `0`,
`Number(true)` is `1`, `Number("")` is `0`, objects are `NaN`.) -/
def jsToNumber (v : Option JVal) : Option ℚ :=
  match v with
  | none => none
  | some .jnull => some 0
  | some (.jbool b) => some (if b then 1 else 0)
  | some (.jnum x) => some x
  | some (.jstr s) => jsNumberOfString s
  | some (.jobj _) => none

/-- `pickInt` from the source: `Math.trunc(Number(v))`, `NaN` → `null`. -/
def pickInt (v : Option JVal) : Option Int := (jsToNumber v).map jsTrunc

/-- `parseNumber` from the source on a JS value (stricter than `Number`:
only finite numbers and non-empty numeric strings). -/
def parseNumberJ (v : Option JVal) : Option ℚ :=
  match v with
  | some (.jnum x) => some x
  | some (.jstr s) =>
      let t := jsTrim s
      if t = "" then none else decParse t
  | _ => none

/-- `parseIntLike` from the source on a JS value. -/
def parseIntLikeJ (v : Option JVal) : Option Int := (parseNumberJ v).map jsTrunc

/-- `parseLat`: parse then require `[-90, 90]`, else absent. -/
def parseLatJ (v : Option JVal) : Option ℚ :=
  (parseNumberJ v).bind fun n => if n < -90 ∨ 90 < n then none else some n

/-- `parseLng`: parse then require `[-180, 180]`, else absent. -/
def parseLngJ (v : Option JVal) : Option ℚ :=
  (parseNumberJ v).bind fun n => if n < -180 ∨ 180 < n then none else some n

/-- `asBool` from the source: literal booleans, or `"true"`/`"false"`
case-insensitively; anything else is absent. -/
def asBoolJ (v : Option JVal) : Option Bool :=
  match v with
  | some (.jbool b) => some b
  | some (.jstr s) =>
      if lowerStr s = "true" then some true
      else if lowerStr s = "false" then some false
      else none
  | _ => none

-- -------------------------------------------------------------------------------------
-- Field reconciliation: denormCarColumnsFromBody
-- -------------------------------------------------------------------------------------

/-- The columns produced by `denormCarColumnsFromBody`. -/
structure DenormCols where
  make : Option String := none
  model : Option String := none
  trim : Option String := none
  year : Option Int := none
  body_type : Option String := none
  fuel_type : Option String := none
  pickup_city : Option String := none
  pickup_state : Option String := none
  pickup_country : Option String := none
  pickup_postal_code : Option String := none
deriving DecidableEq, Repr

/-- `denormCarColumnsFromBody`: per logical field, first-present-wins over
top-level body, then the matching `features` sub-bag (`vehicle` / `address`
/ `pickup`), then — for pickup fields — generic top-level fallbacks. -/
def denormCarColumnsFromBody (body : JVal) : DenormCols :=
  let features := jco (jget body "features") (.jobj [])
  let vehicle := jco (jget features "vehicle") (.jobj [])
  let address := jco (jget features "address") (.jobj [])
  let pickup := jco (jget features "pickup") (.jobj [])
  { make := pickString (jget body "make") <|> pickString (jget vehicle "make")
    model := pickString (jget body "model") <|> pickString (jget vehicle "model")
    trim := pickString (jget body "trim") <|> pickString (jget vehicle "trim")
    year := pickInt (jget body "year") <|> pickInt (jget vehicle "year")
    body_type := pickString (jget body "body_type") <|>
      pickString (jget body "vehicle_type") <|>
      pickString (jget vehicle "body_type") <|>
      pickString (jget vehicle "vehicle_type")
    fuel_type := pickString (jget body "fuel_type") <|> pickString (jget vehicle "fuel_type")
    pickup_city := pickString (jget body "pickup_city") <|>
      pickString (jget pickup "pickup_city") <|>
      pickString (jget address "city") <|>
      pickString (jget body "city")
    pickup_state := pickString (jget body "pickup_state") <|>
      pickString (jget pickup "pickup_state") <|>
      pickString (jget address "province") <|>
      pickString (jget body "area") <|>
      pickString (jget body "province")
    pickup_country := pickString (jget body "pickup_country") <|>
      pickString (jget pickup "pickup_country") <|>
      pickString (jget address "country_code") <|>
      pickString (jget body "country_code")
    pickup_postal_code := pickString (jget body "pickup_postal_code") <|>
      pickString (jget pickup "pickup_postal_code") <|>
      pickString (jget address "postal_code") }

-- -------------------------------------------------------------------------------------
-- PATCH /cars/:id/publish
-- -------------------------------------------------------------------------------------

/-- The slice of a stored row the publish route reads and writes. -/
structure PublishRow where
  make : Option String := none
  model : Option String := none
  trim : Option String := none
  year : Option Int := none
  body_type : Option String := none
  fuel_type : Option String := none
  pickup_city : Option String := none
  pickup_state : Option String := none
  pickup_country : Option String := none
  pickup_postal_code : Option String := none
  status : Option String := none
  features : JVal := .jobj []

/-- The publish handler: status is required (trimmed, any non-empty string);
the current row is fetched (`none` models the 404); incoming `features` (a
plain object, else ignored) is merged over the stored bag; the payload with
the merged bag substituted is re-run through `denormCarColumnsFromBody`; the
UPDATE sets `status`, stores the merged bag, and `COALESCE`s each
denormalized column over its existing value. -/
def publishCar (body : JVal) (current : Option PublishRow) : Except String PublishRow :=
  match normalizeStrJ (jget body "status") with
  | none => Except.error "status is required"
  | some status =>
    match current with
    | none => Except.error "Car not found"
    | some cur =>
      let incomingFeatures : Option JVal :=
        match jget body "features" with
        | some f => if isPlainObject f then some f else none
        | none => none
      let merged := jco incomingFeatures (jco (some cur.features) (.jobj []))
      let den := denormCarColumnsFromBody (jset body "features" merged)
      Except.ok { cur with
        status := some status
        features := merged
        make := den.make <|> cur.make
        model := den.model <|> cur.model
        trim := den.trim <|> cur.trim
        year := den.year <|> cur.year
        body_type := den.body_type <|> cur.body_type
        fuel_type := den.fuel_type <|> cur.fuel_type
        pickup_city := den.pickup_city <|> cur.pickup_city
        pickup_state := den.pickup_state <|> cur.pickup_state
        pickup_country := den.pickup_country <|> cur.pickup_country
        pickup_postal_code := den.pickup_postal_code <|> cur.pickup_postal_code }

lemma jlookup_append (l1 l2 : List (String × JVal)) (k : String) :
    jlookup (l1 ++ l2) k = (jlookup l1 k <|> jlookup l2 k) := by
  induction l1 with
  | nil => simp [jlookup]
  | cons p r ih =>
      by_cases hp : p.1 = k
      · simp [jlookup, hp]
      · simp [jlookup, hp, ih]

lemma jlookup_filter_ne (l : List (String × JVal)) {k k' : String} (h : k ≠ k') :
    jlookup (l.filter fun p => p.1 ≠ k') k = jlookup l k := by
  induction l with
  | nil => rfl
  | cons p r ih =>
      rw [List.filter_cons]
      by_cases hp : p.1 = k'
      · rw [if_neg (by simp [hp]), ih]
        have hpk : ¬ p.1 = k := fun hk => h (by rw [← hk, hp])
        simp only [jlookup]
        rw [if_neg hpk]
      · rw [if_pos (by simp [hp])]
        simp only [jlookup]
        by_cases hk : p.1 = k
        · rw [if_pos hk, if_pos hk]
        · rw [if_neg hk, if_neg hk]
          exact ih

lemma jlookup_filter_self (l : List (String × JVal)) (k : String) :
    jlookup (l.filter fun p => p.1 ≠ k) k = none := by
  induction l with
  | nil => rfl
  | cons p r ih =>
      rw [List.filter_cons]
      by_cases hp : p.1 = k
      · rw [if_neg (by simp [hp]), ih]
      · rw [if_pos (by simp [hp])]
        simp only [jlookup]
        rw [if_neg hp]
        exact ih

/-- Reading back the key just written by a spread-override. -/
lemma jget_jset_same (v : JVal) (k : String) (x : JVal) :
    jget (jset v k x) k = some x := by
  rw [jset, jget, jlookup_append, jlookup_filter_self]
  simp [jlookup]

/-- Reading any other key of a spread-override sees the original object. -/
lemma jget_jset_ne (v : JVal) {k k' : String} (x : JVal) (h : k ≠ k') :
    jget (jset v k' x) k = jlookup (jvalFields v) k := by
  rw [jset, jget, jlookup_append, jlookup_filter_ne _ h]
  have hx : jlookup [(k', x)] k = none := by
    have hk : ¬ k' = k := fun hk => h hk.symm
    simp only [jlookup]
    rw [if_neg hk]
  rw [hx]
  cases jlookup (jvalFields v) k <;> rfl

-- -------------------------------------------------------------------------------------
-- C2
-- -------------------------------------------------------------------------------------

/-- C2: publishing with a payload that carries only a status change (no
`features`, no top-level `make`) against a record whose stored bag has
`features.vehicle.make = s` re-runs reconciliation over the merge of the
payload with the stored bag, so the resolved `make` column after publish is
still `s` — previously-saved nested values are not lost. -/
theorem C2_publish_merge_preserves_nested (bs fs vs : List (String × JVal))
    (cur : PublishRow) (s st : String)
    (hbf : jlookup bs "features" = none)
    (hbm : jlookup bs "make" = none)
    (hst : normalizeStrJ (jlookup bs "status") = some st)
    (hcf : cur.features = JVal.jobj fs)
    (hv : jlookup fs "vehicle" = some (JVal.jobj vs))
    (hm : jlookup vs "make" = some (JVal.jstr s))
    (hs : jsTrim s = s) (hne : s ≠ "") :
    ∃ r, publishCar (JVal.jobj bs) (some cur) = Except.ok r ∧
      r.make = some s ∧ r.status = some st := by
  have hden : (denormCarColumnsFromBody
      (jset (JVal.jobj bs) "features" (JVal.jobj fs))).make = some s := by
    have h1 : jget (jset (JVal.jobj bs) "features" (JVal.jobj fs)) "features"
        = some (JVal.jobj fs) := jget_jset_same _ _ _
    have h2 : jget (jset (JVal.jobj bs) "features" (JVal.jobj fs)) "make"
        = jlookup bs "make" := jget_jset_ne _ _ (by decide)
    have h3 : jco (some (JVal.jobj fs)) (JVal.jobj []) = JVal.jobj fs := rfl
    have h4 : jget (JVal.jobj fs) "vehicle" = jlookup fs "vehicle" := rfl
    have h5 : jco (some (JVal.jobj vs)) (JVal.jobj []) = JVal.jobj vs := rfl
    have h6 : jget (JVal.jobj vs) "make" = jlookup vs "make" := rfl
    have h7 : pickString (some (JVal.jstr s)) = some s := by
      simp only [pickString, hs]
      rw [if_neg hne]
    have h8 : pickString (none : Option JVal) = none := rfl
    simp only [denormCarColumnsFromBody, h1, h2, hbm, h3, h4, hv, h5, h6, hm, h7, h8]
    rfl
  simp only [publishCar]
  rw [show jget (JVal.jobj bs) "status" = jlookup bs "status" from rfl, hst]
  rw [show jget (JVal.jobj bs) "features" = jlookup bs "features" from rfl, hbf]
  dsimp only
  rw [hcf]
  simp only [jco]
  refine ⟨_, rfl, ?_, rfl⟩
  show ((denormCarColumnsFromBody (jset (JVal.jobj bs) "features" (JVal.jobj fs))).make
      <|> cur.make) = some s
  rw [hden]
  rfl

/-- The payload and stored row instantiating C2: publish sends only
`{status: "active"}`, the stored bag has `vehicle.make = "Toyota"`. -/
def pubBodyC2 : JVal := JVal.jobj [("status", JVal.jstr "active")]

/-- The stored row for the C2 instance. -/
def curRowC2 : PublishRow :=
  { features := JVal.jobj [("vehicle", JVal.jobj [("make", JVal.jstr "Toyota")])] }

/-- Concrete instance of C2: `make` resolves to `"Toyota"` after a
status-only publish. -/
theorem C2_witness :
    ∃ r, publishCar pubBodyC2 (some curRowC2) = Except.ok r ∧
      r.make = some "Toyota" ∧ r.status = some "active" :=
  C2_publish_merge_preserves_nested
    [("status", JVal.jstr "active")]
    [("vehicle", JVal.jobj [("make", JVal.jstr "Toyota")])]
    [("make", JVal.jstr "Toyota")]
    curRowC2 "Toyota" "active" rfl rfl rfl rfl rfl rfl rfl (by decide)

-- -------------------------------------------------------------------------------------
-- C8
-- -------------------------------------------------------------------------------------

/-- C8: the publish route accepts ANY non-empty string as status — the
stored status is exactly the trimmed input, with no restriction to the
documented enumeration — and rejects only an absent/empty status. -/
theorem C8_publish_status_unrestricted :
    (∀ (bs : List (String × JVal)) (cur : PublishRow) (s : String),
      jlookup bs "status" = some (JVal.jstr s) → jsTrim s ≠ "" →
      ∃ r, publishCar (JVal.jobj bs) (some cur) = Except.ok r ∧
        r.status = some (jsTrim s)) ∧
    (∀ (body : JVal) (cur : Option PublishRow),
      normalizeStrJ (jget body "status") = none →
      publishCar body cur = Except.error "status is required") := by
  constructor
  · intro bs cur s h hne
    have hst : normalizeStrJ (jlookup bs "status") = some (jsTrim s) := by
      rw [h]
      simp only [normalizeStrJ, jvalToString]
      rw [if_neg hne]
    simp only [publishCar]
    rw [show jget (JVal.jobj bs) "status" = jlookup bs "status" from rfl, hst]
    exact ⟨_, rfl, rfl⟩
  · intro body cur h
    simp only [publishCar, h]

/-- Concrete instances of C8: an arbitrary undocumented status string is
stored trimmed; an all-whitespace status is rejected. -/
theorem C8_witness :
    (∃ r, publishCar (JVal.jobj [("status", JVal.jstr " totally_custom_state ")])
        (some ({} : PublishRow)) = Except.ok r ∧
      r.status = some "totally_custom_state") ∧
    publishCar (JVal.jobj [("status", JVal.jstr "  ")]) (some ({} : PublishRow))
      = Except.error "status is required" :=
  ⟨C8_publish_status_unrestricted.1 [("status", JVal.jstr " totally_custom_state ")]
      {} " totally_custom_state " rfl (by decide),
   C8_publish_status_unrestricted.2 (JVal.jobj [("status", JVal.jstr "  ")])
      (some {}) rfl⟩

-- -------------------------------------------------------------------------------------
-- Write sanitisation: extractPickupPatch, sanitizeUpsert, validateUpsertSanitized
-- -------------------------------------------------------------------------------------

/-- The pickup columns produced by `extractPickupPatch` (a key is present
exactly when the value is non-null, which is how `Object.assign` sees it). -/
structure PickupPatch where
  pickup_lat : Option ℚ := none
  pickup_lng : Option ℚ := none
  pickup_address : Option String := none
  pickup_city : Option String := none
  pickup_state : Option String := none
  pickup_country : Option String := none
  pickup_postal_code : Option String := none

/-- `extractPickupPatch`: top-level pickup fields, falling back to the
legacy `features.pickup` sub-bag (read only when it is a plain object);
coordinates go through the range-checked `parseLat`/`parseLng`. -/
def extractPickupPatch (body : JVal) : PickupPatch :=
  let pick := jgetO (jget body "features") "pickup"
  let ng : String → Option JVal := fun k =>
    match pick with
    | some (.jobj fs) => jlookup fs k
    | _ => none
  { pickup_lat := parseLatJ (jget body "pickup_lat") <|> parseLatJ (ng "pickup_lat")
    pickup_lng := parseLngJ (jget body "pickup_lng") <|> parseLngJ (ng "pickup_lng")
    pickup_address := normalizeStrJ (jget body "pickup_address") <|>
      normalizeStrJ (ng "pickup_address")
    pickup_city := normalizeStrJ (jget body "pickup_city") <|>
      normalizeStrJ (ng "pickup_city")
    pickup_state := normalizeStrJ (jget body "pickup_state") <|>
      normalizeStrJ (ng "pickup_state")
    pickup_country := normalizeStrJ (jget body "pickup_country") <|>
      normalizeStrJ (ng "pickup_country")
    pickup_postal_code := normalizeStrJ (jget body "pickup_postal_code") <|>
      normalizeStrJ (ng "pickup_postal_code") }

/-- The canonical column map built by `sanitizeUpsert` (`out` in the
source); an outer `none` means the key is absent.  `area`/`currency` may be
present-with-null, hence the nested option.  `image_gallery` is omitted:
arrays are unmodelled and no property here touches it. -/
structure Patch where
  title : Option String := none
  vehicle_type : Option String := none
  country_code : Option String := none
  city : Option String := none
  transmission : Option String := none
  fuel_type : Option String := none
  area : Option (Option String) := none
  full_address : Option String := none
  currency : Option (Option String) := none
  price_per_day : Option Int := none
  seats : Option Int := none
  year : Option Int := none
  make : Option String := none
  model : Option String := none
  trim : Option String := none
  body_type : Option String := none
  pickup_lat : Option ℚ := none
  pickup_lng : Option ℚ := none
  pickup_address : Option String := none
  pickup_city : Option String := none
  pickup_state : Option String := none
  pickup_country : Option String := none
  pickup_postal_code : Option String := none
  image_path : Option String := none
  image_public : Option Bool := none
  has_image : Option Bool := none
  is_popular : Option Bool := none
  is_featured : Option Bool := none
  status : Option String := none
  features : Option JVal := none

/-- `sanitizeUpsert`, required-on-create strings block: on create, set only
when non-empty; on update, set whenever the key is present (`?? ""`),
country code upper-cased. -/
def sanitizeRequiredStrings (body : JVal) (isCreate : Bool) : Patch :=
  let title := normalizeStrJ (jget body "title")
  let vehicleType := normalizeStrJ (jget body "vehicle_type")
  let countryCode := normalizeStrJ (jget body "country_code")
  let city := normalizeStrJ (jget body "city")
  if isCreate then
    { title := title, vehicle_type := vehicleType,
      country_code := countryCode.map upperStr, city := city }
  else
    { title := if (jget body "title").isSome then some (title.getD "") else none
      vehicle_type :=
        if (jget body "vehicle_type").isSome then some (vehicleType.getD "") else none
      country_code :=
        if (jget body "country_code").isSome then some (upperStr (countryCode.getD ""))
        else none
      city := if (jget body "city").isSome then some (city.getD "") else none }

/-- `sanitizeUpsert`, optional strings block (`transmission`, `fuel_type`,
`area`, `full_address`, `currency`). -/
def sanitizeOptionalStrings (body : JVal) (o : Patch) : Patch :=
  { o with
    transmission :=
      if (jget body "transmission").isSome
      then some ((normalizeStrJ (jget body "transmission")).getD "") else none
    fuel_type :=
      if (jget body "fuel_type").isSome
      then some ((normalizeStrJ (jget body "fuel_type")).getD "") else none
    area := if (jget body "area").isSome then some (normalizeStrJ (jget body "area")) else none
    full_address :=
      if (jget body "full_address").isSome
      then some ((normalizeStrJ (jget body "full_address")).getD "") else none
    currency :=
      if (jget body "currency").isSome then some (normalizeStrJ (jget body "currency"))
      else none }

/-- `sanitizeUpsert`, numbers block: numeric-looking input accepted, clamped
(`price_per_day` to `[0, 1e6]`, `seats` to `[1, 99]`, `year` to
`[1950, thisYear]` where `thisYear` is `currentYear + 1`). -/
def sanitizeNumbers (body : JVal) (thisYear : Int) (o : Patch) : Patch :=
  { o with
    price_per_day :=
      if (jget body "price_per_day").isSome
      then (parseIntLikeJ (jget body "price_per_day")).map (fun n => clampInt n 0 1000000)
      else none
    seats :=
      if (jget body "seats").isSome
      then (parseIntLikeJ (jget body "seats")).map (fun n => clampInt n 1 99)
      else none
    year :=
      if (jget body "year").isSome
      then (parseIntLikeJ (jget body "year")).map (fun n => clampInt n 1950 thisYear)
      else none }

/-- `sanitizeUpsert`, denormalized vehicle columns block: each `den` value,
when present, overwrites — including `out.year = den.year`, which is NOT
clamped. -/
def sanitizeDenormCols (body : JVal) (o : Patch) : Patch :=
  let den := denormCarColumnsFromBody body
  { o with
    make := den.make <|> o.make
    model := den.model <|> o.model
    trim := den.trim <|> o.trim
    year := den.year <|> o.year
    body_type := den.body_type <|> o.body_type
    fuel_type := den.fuel_type <|> o.fuel_type }

/-- `sanitizeUpsert`, pickup block: `Object.assign(out, extractPickupPatch(body))`. -/
def sanitizePickupStep (body : JVal) (o : Patch) : Patch :=
  let pp := extractPickupPatch body
  { o with
    pickup_lat := pp.pickup_lat <|> o.pickup_lat
    pickup_lng := pp.pickup_lng <|> o.pickup_lng
    pickup_address := pp.pickup_address <|> o.pickup_address
    pickup_city := pp.pickup_city <|> o.pickup_city
    pickup_state := pp.pickup_state <|> o.pickup_state
    pickup_country := pp.pickup_country <|> o.pickup_country
    pickup_postal_code := pp.pickup_postal_code <|> o.pickup_postal_code }

/-- `sanitizeUpsert`, pickup denorm-fallback block: fill still-absent pickup
columns from the address/denorm fallbacks. -/
def sanitizePickupFallback (body : JVal) (o : Patch) : Patch :=
  let den := denormCarColumnsFromBody body
  { o with
    pickup_city := o.pickup_city <|> den.pickup_city
    pickup_state := o.pickup_state <|> den.pickup_state
    pickup_country := o.pickup_country <|> den.pickup_country
    pickup_postal_code := o.pickup_postal_code <|> den.pickup_postal_code }

/-- `sanitizeUpsert`, images/flags/status block (`image_gallery` omitted,
see `Patch`). -/
def sanitizeImageFlags (body : JVal) (o : Patch) : Patch :=
  { o with
    image_path :=
      if (jget body "image_path").isSome
      then some ((normalizeStrJ (jget body "image_path")).getD "") else none
    image_public :=
      if (jget body "image_public").isSome then asBoolJ (jget body "image_public") else none
    has_image :=
      if (jget body "has_image").isSome then asBoolJ (jget body "has_image") else none
    is_popular :=
      if (jget body "is_popular").isSome then asBoolJ (jget body "is_popular") else none
    is_featured :=
      if (jget body "is_featured").isSome then asBoolJ (jget body "is_featured") else none
    status :=
      if (jget body "status").isSome then normalizeStrJ (jget body "status") else none }

/-- `sanitizeUpsert`, features passthrough block: keep the bag when it is a
plain object. -/
def sanitizeFeaturesField (body : JVal) (o : Patch) : Patch :=
  { o with
    features :=
      match jget body "features" with
      | some f => if isPlainObject f then some f else none
      | none => none }

/-- `sanitizeUpsert` from the source, its blocks applied in source order. -/
def sanitizeUpsert (body : JVal) (isCreate : Bool) (thisYear : Int) : Patch :=
  sanitizeFeaturesField body (sanitizeImageFlags body (sanitizePickupFallback body
    (sanitizePickupStep body (sanitizeDenormCols body (sanitizeNumbers body thisYear
      (sanitizeOptionalStrings body (sanitizeRequiredStrings body isCreate)))))))

/-- `price_per_day` range check of `validateUpsertSanitized`. -/
def badPrice (p : Patch) : Bool :=
  match p.price_per_day with
  | some n => decide (n < 0)
  | none => false

/-- `seats` range check of `validateUpsertSanitized`. -/
def badSeats (p : Patch) : Bool :=
  match p.seats with
  | some n => decide (n < 1 ∨ 99 < n)
  | none => false

/-- `year` range check of `validateUpsertSanitized`. -/
def badYear (p : Patch) (thisYear : Int) : Bool :=
  match p.year with
  | some n => decide (n < 1950 ∨ thisYear < n)
  | none => false

/-- `pickup_lat` range check of `validateUpsertSanitized`. -/
def badLat (p : Patch) : Bool :=
  match p.pickup_lat with
  | some n => decide (n < -90 ∨ 90 < n)
  | none => false

/-- `pickup_lng` range check of `validateUpsertSanitized`. -/
def badLng (p : Patch) : Bool :=
  match p.pickup_lng with
  | some n => decide (n < -180 ∨ 180 < n)
  | none => false

/-- Required-on-create check of `validateUpsertSanitized`. -/
def missingCreateField (p : Patch) : Bool :=
  (normalizeStrS p.title).isNone || (normalizeStrS p.vehicle_type).isNone ||
    (normalizeStrS p.country_code).isNone || (normalizeStrS p.city).isNone

/-- `validateUpsertSanitized` from the source: required create fields, then
the numeric and coordinate range checks, first failure wins. -/
def validateUpsertSanitized (p : Patch) (isCreate : Bool) (thisYear : Int) :
    Except String Unit :=
  if isCreate && missingCreateField p then
    Except.error "title, vehicle_type, country_code, and city are required"
  else if badPrice p then Except.error "price_per_day must be a positive number"
  else if badSeats p then Except.error "seats must be between 1 and 99"
  else if badYear p thisYear then
    Except.error ("year must be between 1950 and " ++ toString thisYear)
  else if badLat p then Except.error "pickup_lat must be between -90 and 90"
  else if badLng p then Except.error "pickup_lng must be between -180 and 180"
  else Except.ok ()

-- -------------------------------------------------------------------------------------
-- C3
-- -------------------------------------------------------------------------------------

/-- An update payload carrying only an out-of-range year. -/
def bodyYear5000 : JVal := JVal.jobj [("year", JVal.jnum 5000)]

/-- A create payload with all required fields and an out-of-range year. -/
def bodyCreateYear5000 : JVal :=
  JVal.jobj [("title", JVal.jstr "t"), ("vehicle_type", JVal.jstr "suv"),
    ("country_code", JVal.jstr "CA"), ("city", JVal.jstr "Rome"),
    ("year", JVal.jnum 5000)]

/-- C3 counterexample: an out-of-range `year` is NOT clamped-and-accepted.
`sanitizeUpsert` first clamps it, but the denormalization step overwrites
`out.year` with the unclamped truncated input, so the sanitized value stays
`5000` and validation rejects the write — on update and on create alike
(here with `currentYear + 1 = 2027`). -/
theorem C3_counterexample :
    (sanitizeUpsert bodyYear5000 false 2027).year = some 5000 ∧
    validateUpsertSanitized (sanitizeUpsert bodyYear5000 false 2027) false 2027
      = Except.error "year must be between 1950 and 2027" ∧
    (sanitizeUpsert bodyCreateYear5000 true 2027).year = some 5000 ∧
    validateUpsertSanitized (sanitizeUpsert bodyCreateYear5000 true 2027) true 2027
      = Except.error "year must be between 1950 and 2027" :=
  ⟨rfl, rfl, rfl, rfl⟩

lemma validate_ne_ok_of_badYear (p : Patch) (c : Bool) (ty : Int)
    (h : badYear p ty = true) : validateUpsertSanitized p c ty ≠ Except.ok () := by
  unfold validateUpsertSanitized
  split_ifs <;> simp_all

/-- C3 amended: supplied out-of-range `seats` and `pricePerDay` are clamped
into range (and hence accepted), but `year` is only clamped transiently —
the vehicle-denormalization step overwrites it with the unclamped truncated
input, so an out-of-range year on create or update is rejected by
validation, not persisted in-range. -/
theorem C3_amended_numeric_clamping (body : JVal) (c : Bool) (ty : Int) :
    (∀ x : ℚ, jget body "seats" = some (JVal.jnum x) →
      (sanitizeUpsert body c ty).seats = some (clampInt (jsTrunc x) 1 99)) ∧
    (∀ x : ℚ, jget body "price_per_day" = some (JVal.jnum x) →
      (sanitizeUpsert body c ty).price_per_day = some (clampInt (jsTrunc x) 0 1000000)) ∧
    (∀ x : ℚ, jget body "year" = some (JVal.jnum x) →
      (sanitizeUpsert body c ty).year = some (jsTrunc x) ∧
      ((jsTrunc x < 1950 ∨ ty < jsTrunc x) →
        validateUpsertSanitized (sanitizeUpsert body c ty) c ty ≠ Except.ok ())) := by
  refine ⟨fun x h => ?_, fun x h => ?_, fun x h => ?_⟩
  · rw [show (sanitizeUpsert body c ty).seats
        = if (jget body "seats").isSome
          then (parseIntLikeJ (jget body "seats")).map (fun n => clampInt n 1 99)
          else none from rfl, h]
    rfl
  · rw [show (sanitizeUpsert body c ty).price_per_day
        = if (jget body "price_per_day").isSome
          then (parseIntLikeJ (jget body "price_per_day")).map (fun n => clampInt n 0 1000000)
          else none from rfl, h]
    rfl
  · have hyear : (sanitizeUpsert body c ty).year = some (jsTrunc x) := by
      rw [show (sanitizeUpsert body c ty).year
          = ((pickInt (jget body "year") <|>
              pickInt (jget (jco (jget (jco (jget body "features") (JVal.jobj []))
                "vehicle") (JVal.jobj [])) "year")) <|>
             (sanitizeNumbers body ty (sanitizeOptionalStrings body
               (sanitizeRequiredStrings body c))).year) from rfl, h]
      rfl
    refine ⟨hyear, fun hbad => ?_⟩
    apply validate_ne_ok_of_badYear
    unfold badYear
    rw [hyear]
    exact decide_eq_true hbad

/-- The payload instantiating the amended C3: out-of-range seats, price and
year together. -/
def bodyOutOfRange : JVal :=
  JVal.jobj [("seats", JVal.jnum 200), ("price_per_day", JVal.jnum (-50)),
    ("year", JVal.jnum 5000)]

/-- Concrete instance of the amended C3: seats 200 → 99, price −50 → 0,
year 5000 kept unclamped and the write rejected. -/
theorem C3_amended_witness :
    (sanitizeUpsert bodyOutOfRange false 2027).seats = some 99 ∧
    (sanitizeUpsert bodyOutOfRange false 2027).price_per_day = some 0 ∧
    (sanitizeUpsert bodyOutOfRange false 2027).year = some 5000 ∧
    validateUpsertSanitized (sanitizeUpsert bodyOutOfRange false 2027) false 2027
      ≠ Except.ok () :=
  ⟨(C3_amended_numeric_clamping bodyOutOfRange false 2027).1 200 rfl,
   (C3_amended_numeric_clamping bodyOutOfRange false 2027).2.1 (-50) rfl,
   ((C3_amended_numeric_clamping bodyOutOfRange false 2027).2.2 5000 rfl).1,
   ((C3_amended_numeric_clamping bodyOutOfRange false 2027).2.2 5000 rfl).2
     (by decide)⟩
